import Mathlib

/-!
Verification of the diagram-publish pipeline of the OneNote MCP server
(`src/onenote/src/index.ts`): the render engine `generateJpegFromMermaid`,
the publish coordinator `saveDiagram`, and the `onenote-diagram` tool handler.

The TypeScript code is shallowly embedded: byte buffers are `List Nat`
(each entry < 256), external collaborators (puppeteer browser, Microsoft
Graph client) are environments recording the outcome of each call, and the
side effects of a run are captured as an explicit trace of events.
-/

namespace OneNote

/-! ## Definitions: the shallow embedding and the reference multipart parser -/

/-- UTF-8 encoding of a single character, as byte values. -/
def utf8Char (c : Char) : List Nat :=
  if c.toNat < 128 then [c.toNat]
  else if c.toNat < 2048 then [192 + c.toNat / 64, 128 + c.toNat % 64]
  else if c.toNat < 65536 then
    [224 + c.toNat / 4096, 128 + (c.toNat / 64) % 64, 128 + c.toNat % 64]
  else
    [240 + c.toNat / 262144, 128 + (c.toNat / 4096) % 64, 128 + (c.toNat / 64) % 64,
     128 + c.toNat % 64]

/-- UTF-8 encoding of a character list. -/
def utf8List : List Char → List Nat
  | [] => []
  | c :: cs => utf8Char c ++ utf8List cs

/-- UTF-8 encoding of a string (model of `Buffer.from(s, "utf-8")`). -/
def utf8 (s : String) : List Nat := utf8List s.data

/-- Lower-case hexadecimal digit character. -/
def hexDigit : Nat → Char
  | 0 => '0' | 1 => '1' | 2 => '2' | 3 => '3' | 4 => '4' | 5 => '5' | 6 => '6' | 7 => '7'
  | 8 => '8' | 9 => '9' | 10 => 'a' | 11 => 'b' | 12 => 'c' | 13 => 'd' | 14 => 'e' | _ => 'f'

/-- Model of the string escaping of JavaScript JSON.stringify: escapes quote, backslash,
control characters; all other characters pass through verbatim. -/
def escChar (c : Char) : List Char :=
  if c = '"' then ['\\', '"']
  else if c = '\\' then ['\\', '\\']
  else if c.toNat = 8 then ['\\', 'b']
  else if c.toNat = 9 then ['\\', 't']
  else if c.toNat = 10 then ['\\', 'n']
  else if c.toNat = 12 then ['\\', 'f']
  else if c.toNat = 13 then ['\\', 'r']
  else if c.toNat < 32 then ['\\', 'u', '0', '0', hexDigit (c.toNat / 16), hexDigit (c.toNat % 16)]
  else [c]

/-- JSON escaping of a whole string. -/
def jsonEscape (s : String) : String := ⟨(s.data.map escChar).flatten⟩

/-- The markdown-ish text body of the placeholder page (template literal at
`index.ts:470-477`, including its literal indentation). -/
def textContentOf (title content description : String) : String :=
  "# " ++ title ++ "\n          " ++ (if description = "" then "" else description) ++
  "\n\n          ## Diagram Source (Mermaid)\n          ```\n          " ++ content ++
  "\n          ```\n          "

/-- The XHTML document posted to create the placeholder page (`index.ts:485`). -/
def pageHtml (title content description : String) : String :=
  "<!DOCTYPE html><html><head><title>" ++ title ++ "</title></head><body><div>" ++
  textContentOf title content description ++ "</div></body></html>"

/-- The `<img>` element inside the Commands JSON (`index.ts:505`). -/
def imgContent (title : String) : String :=
  "<img src=\"name:diagramImage\" alt=\"" ++ title ++ "\" data-src-type=\"image/jpeg\"/>"

/-- Model of `JSON.stringify([{target:"body",action:"append",content:imgContent}])`
(`index.ts:501-507`): compact JSON, keys in insertion order. -/
def commandsJson (title : String) : String :=
  "[\x7b\"target\":\"body\",\"action\":\"append\",\"content\":\"" ++
  jsonEscape (imgContent title) ++ "\"\x7d]"

/-- The `Commands` part of the multipart body (`index.ts:496-509`). -/
def commandsPart (boundary title : String) : String :=
  "--" ++ boundary ++ "\r\n" ++
  "Content-Disposition: form-data; name=\"Commands\"\r\n" ++
  "Content-Type: application/json\r\n" ++
  "\r\n" ++ commandsJson title ++ "\r\n"

/-- The header block of the `diagramImage` part (`index.ts:511-517`). -/
def imagePart (boundary : String) : String :=
  "--" ++ boundary ++ "\r\n" ++
  "Content-Disposition: form-data; name=\"diagramImage\"\r\n" ++
  "Content-Type: image/jpeg\r\n" ++
  "Content-Transfer-Encoding: binary\r\n" ++ "\r\n"

/-- The closing boundary (`index.ts:519`). -/
def closingBoundary (boundary : String) : String := "\r\n--" ++ boundary ++ "--\r\n"

/-- Model of `Buffer.concat([commandsPart, imagePart, jpegBuffer, closingBoundary])`
(`index.ts:525-530`). -/
def multipartBuffer (boundary title : String) (jpeg : List Nat) : List Nat :=
  utf8 (commandsPart boundary title) ++ utf8 (imagePart boundary) ++ jpeg ++
  utf8 (closingBoundary boundary)

/-- The boundary token `` `PartBoundary${Date.now()}` `` (`index.ts:495`). -/
def mkBoundary (now : Nat) : String := "PartBoundary" ++ Nat.repr now

/-- The host document loaded into the browser (`index.ts:579-598`, exact
template literal including indentation). -/
def mermaidHtml (mermaidCode : String) : String :=
  "\n      <!DOCTYPE html>\n      <html>\n      <head>\n        <script src=\"https://cdn.jsdelivr.net/npm/mermaid/dist/mermaid.min.js\"></script>\n        <script>\n          mermaid.initialize(\x7b\n            startOnLoad: true,\n            theme: \x27neutral\x27,\n            securityLevel: \x27loose\x27\n          \x7d);\n        </script>\n      </head>\n      <body>\n        <div class=\"mermaid\">\n          " ++
  mermaidCode ++ "\n        </div>\n      </body>\n      </html>\n      "

/-- The predicate string passed to `page.waitForFunction` (`index.ts:605`). -/
def waitFn : String := "document.querySelector(\".mermaid svg\")"

/-- Events observable on the puppeteer sandbox. -/
inductive BEvent where
  | launchB
  | newPageB
  | setContentB (html : String)
  | waitForB (fn : String) (timeoutMs : Nat)
  | screenshotB (format : String) (quality : Nat)
  | closeB
deriving DecidableEq

/-- Outcomes of the external puppeteer calls made by one render:
`launch`, `page.setContent`, `page.waitForFunction` may each reject
(value: the rejection message), and `element.screenshot` yields a byte
buffer. -/
structure BrowserEnv where
  launch : Except String Unit
  setContent : Except String Unit
  waitRender : Except String Unit
  screenshot : List Nat

/-- Shallow embedding of `OneNoteService.generateJpegFromMermaid`
(`index.ts:563-624`): launch a headless browser, load the mermaid host
document, wait (5000 ms timeout) for the rendered SVG, screenshot the
`.mermaid` element as JPEG at quality 80.  Any rejection is wrapped as
`Failed to convert Mermaid diagram to JPEG: <cause>`; the `finally`
block closes the browser whenever it was launched. -/
def generateJpegFromMermaid (env : BrowserEnv) (mermaidCode : String) :
    Except String (List Nat) × List BEvent :=
  match env.launch with
  | .error e => (.error ("Failed to convert Mermaid diagram to JPEG: " ++ e), [.launchB])
  | .ok _ =>
    match env.setContent with
    | .error e =>
        (.error ("Failed to convert Mermaid diagram to JPEG: " ++ e),
         [.launchB, .newPageB, .setContentB (mermaidHtml mermaidCode), .closeB])
    | .ok _ =>
      match env.waitRender with
      | .error e =>
          (.error ("Failed to convert Mermaid diagram to JPEG: " ++ e),
           [.launchB, .newPageB, .setContentB (mermaidHtml mermaidCode),
            .waitForB waitFn 5000, .closeB])
      | .ok _ =>
          (.ok env.screenshot,
           [.launchB, .newPageB, .setContentB (mermaidHtml mermaidCode),
            .waitForB waitFn 5000, .screenshotB "jpeg" 80, .closeB])

/-- Number of `closeB` events in a browser trace. -/
def countClose : List BEvent → Nat
  | [] => 0
  | .closeB :: rest => countClose rest + 1
  | _ :: rest => countClose rest

/-- A page resource as returned by the Graph API (`{id, title}`). -/
structure PageR where
  id : String
  title : String
deriving DecidableEq

/-- Store-side events of one publish. -/
inductive Event where
  | renderE (markup : String)
  | createPageE (url : String) (contentTypeHeader : String) (html : String)
  | sleepE (ms : Nat)
  | patchE (url : String) (contentTypeHeader : String) (body : List Nat)
  | deletePageE (url : String)
  | getNotebooksE
  | getSectionsE (notebookId : String)
deriving DecidableEq

/-- Environment of one `saveDiagram` call: the browser collaborator, the
outcomes of the Graph `createPage` POST and of the content PATCH, and the
`Date.now()` reading used for the boundary. -/
structure SaveEnv where
  browser : BrowserEnv
  createPage : Except String PageR
  patchResult : Except String Unit
  now : Nat

/-- Shallow embedding of `OneNoteService.saveDiagram` (`index.ts:456-561`):
render the JPEG, POST the placeholder page XHTML, sleep 5000 ms, build the
multipart body with a `PartBoundary${Date.now()}` boundary and PATCH it to
the content endpoint of the page.  Every failure is wrapped by the outer catch
as `Failed to save diagram: <cause>`. -/
def saveDiagram (env : SaveEnv) (sectionId title content description : String) :
    Except String PageR × List Event :=
  match (generateJpegFromMermaid env.browser content).1 with
  | .error e => (.error ("Failed to save diagram: " ++ e), [.renderE content])
  | .ok jpeg =>
    let html := pageHtml title content description
    let createUrl := "/me/onenote/sections/" ++ sectionId ++ "/pages"
    match env.createPage with
    | .error e =>
        (.error ("Failed to save diagram: " ++ e),
         [.renderE content, .createPageE createUrl "application/xhtml+xml" html])
    | .ok newPage =>
      let boundary := mkBoundary env.now
      let body := multipartBuffer boundary title jpeg
      let contentUrl := "/me/onenote/pages/" ++ newPage.id ++ "/content"
      let tr := [Event.renderE content,
                 Event.createPageE createUrl "application/xhtml+xml" html,
                 Event.sleepE 5000,
                 Event.patchE contentUrl ("multipart/form-data; boundary=" ++ boundary) body]
      match env.patchResult with
      | .error e => (.error ("Failed to save diagram: " ++ e), tr)
      | .ok _ => (.ok newPage, tr)

/-- Store-state semantics of a trace: a successful `createPage` call adds
the created page, a delete request removes it. -/
def applyEvent (env : SaveEnv) (st : List PageR) : Event → List PageR
  | .createPageE _ _ _ =>
      st ++ (match env.createPage with | .ok p => [p] | .error _ => [])
  | .deletePageE url => st.filter (fun p => decide (("/me/onenote/pages/" ++ p.id) ≠ url))
  | _ => st

/-- Pages present in the store after a trace has been applied. -/
def storeAfter (env : SaveEnv) (tr : List Event) : List PageR :=
  tr.foldl (applyEvent env) []

/-- Per-stage call counters over a publish trace. -/
def countRender : List Event → Nat
  | [] => 0
  | .renderE _ :: rest => countRender rest + 1
  | _ :: rest => countRender rest

def countCreate : List Event → Nat
  | [] => 0
  | .createPageE _ _ _ :: rest => countCreate rest + 1
  | _ :: rest => countCreate rest

def countPatch : List Event → Nat
  | [] => 0
  | .patchE _ _ _ :: rest => countPatch rest + 1
  | _ :: rest => countPatch rest

/-- A notebook resource (`id`, `displayName`). -/
structure NotebookR where
  id : String
  displayName : String

/-- A section resource (`id`, `displayName`). -/
structure SectionR where
  id : String
  displayName : String

/-- Environment of a `save_diagram` tool call: the notebook list returned by
`getNotebooks`, the section lists returned by `getSections` per notebook id,
and the environment of the inner `saveDiagram`. -/
structure ToolEnv where
  notebooks : List NotebookR
  sections : String → List SectionR
  save : SaveEnv

/-- An MCP tool result: the JSON text payload plus the `isError` flag. -/
structure ToolResult where
  isError : Bool
  text : String
deriving DecidableEq

/-- Model of `JSON.stringify({error, message:"Failed to save diagram to OneNote"})`
(`index.ts:917-929`). -/
def errText (msg : String) : String :=
  "\x7b\"error\":\"" ++ jsonEscape msg ++
  "\",\"message\":\"Failed to save diagram to OneNote\"\x7d"

/-- Model of `JSON.stringify({id, title, notebookName, sectionName, message})` on
success (`index.ts:901-915`). -/
def okText (id title nbName secName : String) : String :=
  "\x7b\"id\":\"" ++ jsonEscape id ++ "\",\"title\":\"" ++ jsonEscape title ++
  "\",\"notebookName\":\"" ++ jsonEscape nbName ++ "\",\"sectionName\":\"" ++
  jsonEscape secName ++ "\",\"message\":\"Diagram saved successfully to OneNote\"\x7d"

/-- Shallow embedding of the `save_diagram` branch of the
`CallToolRequestSchema` handler (`index.ts:863-931`): resolve the notebook
by `displayName === notebookName` over `getNotebooks`, then the section by
`displayName === sectionName` over `getSections(notebook.id)`; a failed
lookup throws and is reported as an `isError` result without touching the
render engine or the store. -/
def handleSaveDiagram (env : ToolEnv)
    (title content notebookName sectionName description : String) :
    ToolResult × List Event :=
  match env.notebooks.find? (fun nb => nb.displayName == notebookName) with
  | none =>
      ({ isError := true,
         text := errText ("Notebook \"" ++ notebookName ++ "\" not found") },
       [.getNotebooksE])
  | some nb =>
    match (env.sections nb.id).find? (fun s => s.displayName == sectionName) with
    | none =>
        ({ isError := true,
           text := errText ("Section \"" ++ sectionName ++ "\" not found in notebook \"" ++
                            notebookName ++ "\"") },
         [.getNotebooksE, .getSectionsE nb.id])
    | some s =>
      match saveDiagram env.save s.id title content description with
      | (.ok p, tr) =>
          ({ isError := false, text := okText p.id p.title notebookName sectionName },
           [Event.getNotebooksE, Event.getSectionsE nb.id] ++ tr)
      | (.error m, tr) =>
          ({ isError := true, text := errText m },
           [Event.getNotebooksE, Event.getSectionsE nb.id] ++ tr)

/-- Split a byte list at the first occurrence of `sep`, returning the bytes
before the occurrence and the bytes after it. -/
def splitFirst (sep : List Nat) : List Nat → Option (List Nat × List Nat)
  | [] => if sep.isEmpty then some ([], []) else none
  | x :: xs =>
    if sep.isPrefixOf (x :: xs) then some ([], (x :: xs).drop sep.length)
    else
      match splitFirst sep xs with
      | some (a, b) => some (x :: a, b)
      | none => none

/-- Collect the raw parts: `sep` is `\r\n--boundary`; after each occurrence
either `--` closes the body or `\r\n` starts the next part. -/
def parseLoop (sep : List Nat) : Nat → List Nat → Option (List (List Nat))
  | 0, _ => none
  | fuel + 1, rest =>
    match splitFirst sep rest with
    | none => none
    | some (raw, after) =>
      if [45, 45].isPrefixOf after then some [raw]
      else if [13, 10].isPrefixOf after then
        match parseLoop sep fuel (after.drop 2) with
        | some raws => some (raw :: raws)
        | none => none
      else none

/-- Bytes before the first occurrence of byte `b`. -/
def takeUntilByte (b : Nat) : List Nat → List Nat
  | [] => []
  | x :: xs => if x = b then [] else x :: takeUntilByte b xs

/-- Part name from a header block: the bytes quoted in
`Content-Disposition: form-data; name="..."`. -/
def headerName (hdr : List Nat) : Option (List Nat) :=
  let pre := utf8 "Content-Disposition: form-data; name=\""
  if pre.isPrefixOf hdr then some (takeUntilByte 34 (hdr.drop pre.length)) else none

/-- Parse a raw part into (name, content bytes). -/
def parsePart (raw : List Nat) : Option (List Nat × List Nat) :=
  match splitFirst [13, 10, 13, 10] raw with
  | some (hdr, body) =>
    match headerName hdr with
    | some nm => some (nm, body)
    | none => none
  | none => none

/-- Parse every raw part. -/
def parseAllParts : List (List Nat) → Option (List (List Nat × List Nat))
  | [] => some []
  | r :: rs =>
    match parsePart r, parseAllParts rs with
    | some x, some xs => some (x :: xs)
    | _, _ => none

/-- The reference multipart parser: returns the list of (name, content)
parts, or `none` if the body is not well-formed for `boundary`. -/
def parseMultipart (boundary : String) (body : List Nat) : Option (List (List Nat × List Nat)) :=
  if (utf8 ("--" ++ boundary ++ "\r\n")).isPrefixOf body then
    match parseLoop (utf8 ("\r\n--" ++ boundary)) (body.length + 2)
        (body.drop (utf8 ("--" ++ boundary ++ "\r\n")).length) with
    | some raws => parseAllParts raws
    | none => none
  else none

/-- Whether `pat` occurs as a contiguous sub-list. -/
def hasSub (pat : List Nat) : List Nat → Bool
  | [] => pat.isEmpty
  | x :: xs => pat.isPrefixOf (x :: xs) || hasSub pat xs

/-- No match of `pat` starts at a position inside `A` (the match may extend
into `rest`). -/
def noStart (pat : List Nat) : List Nat → List Nat → Prop
  | [], _ => True
  | x :: A, rest => pat.isPrefixOf (x :: (A ++ rest)) = false ∧ noStart pat A rest

/-- Predicate: `A` is clean for `pat`: no occurrence of `pat` inside `A` and no
nonempty suffix of `A` is a prefix of `pat` — so no match of any extension
of `pat` can start inside `A`, whatever follows. -/
def cleanFor (pat : List Nat) : List Nat → Bool
  | [] => true
  | x :: xs => !(pat.isPrefixOf (x :: xs)) && !((x :: xs).isPrefixOf pat) && cleanFor pat xs

/-- Header bytes of the `Commands` part, first line. -/
def bCD1 : List Nat := utf8 "Content-Disposition: form-data; name=\"Commands\""

/-- Header bytes of the `Commands` part, second line. -/
def bCT1 : List Nat := utf8 "Content-Type: application/json"

/-- Header bytes of the `diagramImage` part, first line. -/
def bCD2 : List Nat := utf8 "Content-Disposition: form-data; name=\"diagramImage\""

/-- Header bytes of the `diagramImage` part, second line. -/
def bCT2 : List Nat := utf8 "Content-Type: image/jpeg"

/-- Header bytes of the `diagramImage` part, third line. -/
def bCTE : List Nat := utf8 "Content-Transfer-Encoding: binary"

/-- Raw bytes of the `Commands` part (headers, blank line, JSON). -/
def rawCommands (J : List Nat) : List Nat := bCD1 ++ [13, 10] ++ bCT1 ++ [13, 10, 13, 10] ++ J

/-- Raw bytes of the `diagramImage` part (headers, blank line, image). -/
def rawImage (jpeg : List Nat) : List Nat :=
  bCD2 ++ [13, 10] ++ bCT2 ++ [13, 10] ++ bCTE ++ [13, 10, 13, 10] ++ jpeg

/-- The full event trace of a publish in which rendering and page creation
both succeeded (the patch is issued whether or not it then fails). -/
def publishTrace (env : SaveEnv) (sectionId title content description : String)
    (jpeg : List Nat) (p : PageR) : List Event :=
  [Event.renderE content,
   Event.createPageE ("/me/onenote/sections/" ++ sectionId ++ "/pages")
     "application/xhtml+xml" (pageHtml title content description),
   Event.sleepE 5000,
   Event.patchE ("/me/onenote/pages/" ++ p.id ++ "/content")
     ("multipart/form-data; boundary=" ++ mkBoundary env.now)
     (multipartBuffer (mkBoundary env.now) title jpeg)]

/-- A publish environment in which the sandbox fails to launch. -/
def envRenderFail : SaveEnv :=
  { browser := { launch := Except.error "boom", setContent := Except.ok (),
                 waitRender := Except.ok (), screenshot := [255, 216, 255] },
    createPage := Except.ok ⟨"pg-1", "Flow"⟩,
    patchResult := Except.ok (), now := 0 }

/-- A healthy browser environment capturing a tiny JPEG. -/
def envBrowserOk : BrowserEnv :=
  { launch := Except.ok (), setContent := Except.ok (), waitRender := Except.ok (),
    screenshot := [255, 216, 255] }

/-- A publish environment in which the patch call is rejected. -/
def envPatchFail : SaveEnv :=
  { browser := envBrowserOk,
    createPage := Except.ok ⟨"pg-1", "Flow"⟩,
    patchResult := Except.error "409 Conflict", now := 7 }

/-- A fully healthy publish environment. -/
def envAllOk : SaveEnv :=
  { browser := envBrowserOk,
    createPage := Except.ok ⟨"pg-1", "Flow"⟩,
    patchResult := Except.ok (), now := 7 }

/-- An image buffer that happens to contain the boundary delimiter bytes
(`\r\n--PartBoundary0--\r\n` followed by one more byte). -/
def jpegCollide : List Nat := utf8 "\r\n--PartBoundary0--\r\n" ++ [65]

/-- A publish environment whose render capture is `jpegCollide` and whose
`Date.now()` reading is 0, so the generated boundary is `PartBoundary0`. -/
def envCollide : SaveEnv :=
  { browser := { launch := Except.ok (), setContent := Except.ok (),
                 waitRender := Except.ok (), screenshot := jpegCollide },
    createPage := Except.ok ⟨"pg-1", "T"⟩,
    patchResult := Except.ok (), now := 0 }

/-- First publish environment of tick 123. -/
def envTickA : SaveEnv :=
  { browser := envBrowserOk, createPage := Except.ok ⟨"pg-1", "T1"⟩,
    patchResult := Except.ok (), now := 123 }

/-- Second, distinct publish environment issued in the same tick 123. -/
def envTickB : SaveEnv :=
  { browser := { launch := Except.ok (), setContent := Except.ok (),
                 waitRender := Except.ok (), screenshot := [200] },
    createPage := Except.ok ⟨"pg-2", "T2"⟩,
    patchResult := Except.ok (), now := 123 }

/-- A publish environment whose page creation is rejected with cause `E`. -/
def envCreateFailE : SaveEnv :=
  { browser := envBrowserOk, createPage := Except.error "E",
    patchResult := Except.ok (), now := 0 }

/-- A publish environment whose patch is rejected with the same cause `E`. -/
def envPatchFailE : SaveEnv :=
  { browser := envBrowserOk, createPage := Except.ok ⟨"pg-9", "T"⟩,
    patchResult := Except.error "E", now := 0 }

/-- A tool environment with one notebook and one section, around the
healthy publish environment. -/
def envTool : ToolEnv :=
  { notebooks := [⟨"nb-1", "Work"⟩],
    sections := fun _ => [⟨"sec-1", "Architecture"⟩],
    save := envAllOk }

/-! ## Theorems -/

theorem utf8List_append (l₁ l₂ : List Char) :
    utf8List (l₁ ++ l₂) = utf8List l₁ ++ utf8List l₂ := by
  induction l₁ with
  | nil => rfl
  | cons c cs ih => simp [utf8List, ih]

theorem utf8_append (s t : String) : utf8 (s ++ t) = utf8 s ++ utf8 t := by
  simp [utf8, String.data_append, utf8List_append]

theorem prefix_append_cases {p u v : List Nat} (h : p <+: u ++ v) :
    p <+: u ∨ (u <+: p ∧ p.drop u.length <+: v) := by
  obtain ⟨t, ht⟩ := h
  rcases List.append_eq_append_iff.mp ht with ⟨a', ha, _⟩ | ⟨c', hc, hv⟩
  · exact Or.inl ⟨a', ha.symm⟩
  · refine Or.inr ⟨⟨c', hc.symm⟩, ?_⟩
    rw [hc, List.drop_left]
    exact ⟨t, hv.symm⟩

theorem noStart_nil (pat rest : List Nat) : noStart pat [] rest := trivial

theorem noStart_append {pat : List Nat} {A B rest : List Nat}
    (hA : noStart pat A (B ++ rest)) (hB : noStart pat B rest) :
    noStart pat (A ++ B) rest := by
  induction A with
  | nil => simpa using hB
  | cons x A ih =>
    obtain ⟨h1, h2⟩ := hA
    exact ⟨by simpa [List.append_assoc] using h1, ih h2⟩

theorem splitFirst_skip {sep : List Nat} (A rest : List Nat) (h : noStart sep A rest) :
    splitFirst sep (A ++ rest) = (splitFirst sep rest).map (fun q => (A ++ q.1, q.2)) := by
  induction A with
  | nil =>
    cases hs : splitFirst sep rest with
    | none => simp [hs]
    | some q => simp [hs]
  | cons x A ih =>
    obtain ⟨h1, h2⟩ := h
    show splitFirst sep (x :: (A ++ rest)) = _
    rw [splitFirst]
    simp only [h1, Bool.false_eq_true, if_false]
    rw [ih h2]
    cases hs : splitFirst sep rest with
    | none => simp
    | some q => simp

theorem splitFirst_exact {sep : List Nat} (hs : sep ≠ []) (rest : List Nat) :
    splitFirst sep (sep ++ rest) = some ([], rest) := by
  match sep, hs with
  | y :: s', _ =>
    show splitFirst (y :: s') (y :: (s' ++ rest)) = some ([], rest)
    have hpre : (y :: s').isPrefixOf (y :: (s' ++ rest)) = true := by
      rw [List.isPrefixOf_iff_prefix]
      exact List.cons_prefix_cons.mpr ⟨rfl, List.prefix_append s' rest⟩
    rw [splitFirst]
    simp only [hpre, if_true]
    have : (y :: (s' ++ rest)).drop (y :: s').length = rest := List.drop_left (y :: s') rest
    rw [this]

theorem splitFirst_at {sep : List Nat} (hs : sep ≠ []) (A rest : List Nat)
    (h : noStart sep A (sep ++ rest)) :
    splitFirst sep (A ++ (sep ++ rest)) = some (A, rest) := by
  rw [splitFirst_skip A (sep ++ rest) h, splitFirst_exact hs rest]
  simp

theorem noStart_of_all_ne {c : Nat} (p' : List Nat) {A : List Nat} (rest : List Nat)
    (h : ∀ x ∈ A, x ≠ c) : noStart (c :: p') A rest := by
  induction A with
  | nil => trivial
  | cons x A ih =>
    refine ⟨?_, ih (fun y hy => h y (List.mem_cons_of_mem _ hy))⟩
    have hx : x ≠ c := h x (List.mem_cons_self _ _)
    show ((c :: p').isPrefixOf (x :: (A ++ rest))) = false
    rw [List.isPrefixOf]
    exact Bool.and_eq_false_iff.mpr (Or.inl (beq_eq_false_iff_ne.mpr (Ne.symm hx)))

theorem noStart_of_cleanFor (pat ext : List Nat) {A : List Nat} (rest : List Nat)
    (h : cleanFor pat A = true) : noStart (pat ++ ext) A rest := by
  induction A with
  | nil => trivial
  | cons x A ih =>
    rw [cleanFor, Bool.and_eq_true, Bool.and_eq_true] at h
    obtain ⟨⟨hp, hq⟩, hr⟩ := h
    rw [Bool.not_eq_true'] at hp hq
    refine ⟨?_, ih hr⟩
    cases hb : (pat ++ ext).isPrefixOf (x :: (A ++ rest)) with
    | false => rfl
    | true =>
      exfalso
      have h1 : (pat ++ ext) <+: (x :: A) ++ rest := List.isPrefixOf_iff_prefix.mp hb
      have h2 : pat <+: (x :: A) ++ rest := (List.prefix_append pat ext).trans h1
      rcases prefix_append_cases h2 with h3 | ⟨h3, _⟩
      · rw [← List.isPrefixOf_iff_prefix, hp] at h3
        exact absurd h3 (by simp)
      · rw [← List.isPrefixOf_iff_prefix, hq] at h3
        exact absurd h3 (by simp)

theorem noStart_crlf (c3 : Nat) (pext : List Nat) {y : Nat} {t : List Nat} (hy : y ≠ c3) :
    noStart (13 :: 10 :: c3 :: pext) [13, 10] (y :: t) := by
  refine ⟨?_, ?_, trivial⟩
  · show (13 :: 10 :: c3 :: pext).isPrefixOf (13 :: 10 :: y :: t) = false
    simp [List.isPrefixOf, Ne.symm hy]
  · show (13 :: 10 :: c3 :: pext).isPrefixOf (10 :: (y :: t)) = false
    simp [List.isPrefixOf]

theorem noStart_blank45 (pext : List Nat) {y : Nat} {t : List Nat} (hy : y ≠ 45) :
    noStart (13 :: 10 :: 45 :: 45 :: pext) [13, 10, 13, 10] (y :: t) := by
  refine ⟨?_, ?_, ?_, ?_, trivial⟩
  · show (13 :: 10 :: 45 :: 45 :: pext).isPrefixOf (13 :: 10 :: 13 :: 10 :: y :: t) = false
    simp [List.isPrefixOf]
  · show (13 :: 10 :: 45 :: 45 :: pext).isPrefixOf (10 :: 13 :: 10 :: y :: t) = false
    simp [List.isPrefixOf]
  · show (13 :: 10 :: 45 :: 45 :: pext).isPrefixOf (13 :: 10 :: y :: t) = false
    simp [List.isPrefixOf, Ne.symm hy]
  · show (13 :: 10 :: 45 :: 45 :: pext).isPrefixOf (10 :: y :: t) = false
    simp [List.isPrefixOf]

theorem not_prefixOf_4545 (q jpeg rrest : List Nat) (h2 : [45, 45].isPrefixOf jpeg = false) :
    ((45 :: 45 :: q).isPrefixOf (jpeg ++ 13 :: rrest)) = false := by
  match jpeg with
  | [] => simp [List.isPrefixOf]
  | [a] => simp [List.isPrefixOf]
  | a :: b :: r =>
    simp only [List.isPrefixOf, List.cons_append, Bool.and_eq_false_iff] at h2 ⊢
    rcases h2 with h | h | h
    · exact Or.inl h
    · exact Or.inr (Or.inl h)
    · simp at h

theorem noStart_blank45_jpeg (pext tail jpeg : List Nat)
    (h2 : [45, 45].isPrefixOf jpeg = false) :
    noStart (13 :: 10 :: 45 :: 45 :: pext) [13, 10, 13, 10]
      (jpeg ++ (13 :: 10 :: 45 :: 45 :: pext) ++ tail) := by
  have htl : jpeg ++ (13 :: 10 :: 45 :: 45 :: pext) ++ tail =
      jpeg ++ 13 :: (10 :: 45 :: 45 :: pext ++ tail) := by simp
  refine ⟨?_, ?_, ?_, ?_, trivial⟩
  · show (13 :: 10 :: 45 :: 45 :: pext).isPrefixOf
      (13 :: 10 :: 13 :: 10 :: (jpeg ++ (13 :: 10 :: 45 :: 45 :: pext) ++ tail)) = false
    simp [List.isPrefixOf]
  · show (13 :: 10 :: 45 :: 45 :: pext).isPrefixOf
      (10 :: 13 :: 10 :: (jpeg ++ (13 :: 10 :: 45 :: 45 :: pext) ++ tail)) = false
    simp [List.isPrefixOf]
  · show (13 :: 10 :: 45 :: 45 :: pext).isPrefixOf
      (13 :: 10 :: (jpeg ++ (13 :: 10 :: 45 :: 45 :: pext) ++ tail)) = false
    rw [List.isPrefixOf, List.isPrefixOf, htl]
    simp only [beq_self_eq_true, Bool.true_and]
    exact not_prefixOf_4545 pext jpeg (10 :: 45 :: 45 :: pext ++ tail) h2
  · show (13 :: 10 :: 45 :: 45 :: pext).isPrefixOf
      (10 :: (jpeg ++ (13 :: 10 :: 45 :: 45 :: pext) ++ tail)) = false
    simp [List.isPrefixOf]

theorem noStart_jpeg (pext rrest : List Nat) {jpeg : List Nat}
    (h1 : hasSub [13, 10, 45, 45] jpeg = false) :
    noStart (13 :: 10 :: 45 :: 45 :: pext) jpeg (13 :: rrest) := by
  induction jpeg with
  | nil => trivial
  | cons x xs ih =>
    rw [hasSub, Bool.or_eq_false_iff] at h1
    refine ⟨?_, ih h1.2⟩
    cases hb : (13 :: 10 :: 45 :: 45 :: pext).isPrefixOf (x :: (xs ++ 13 :: rrest)) with
    | false => rfl
    | true =>
      exfalso
      have hpre : (13 :: 10 :: 45 :: 45 :: pext) <+: (x :: xs) ++ (13 :: rrest) :=
        List.isPrefixOf_iff_prefix.mp hb
      have hp4 : [13, 10, 45, 45] <+: (x :: xs) ++ (13 :: rrest) :=
        (show [13, 10, 45, 45] <+: 13 :: 10 :: 45 :: 45 :: pext from ⟨pext, rfl⟩).trans hpre
      rcases prefix_append_cases hp4 with hc | ⟨hc, hd⟩
      · rw [← List.isPrefixOf_iff_prefix, h1.1] at hc
        exact absurd hc (by simp)
      · rcases xs with _ | ⟨b, xs⟩
        · simp at hd
        rcases xs with _ | ⟨c, xs⟩
        · simp at hd
        rcases xs with _ | ⟨d, xs⟩
        · simp at hd
        rcases xs with _ | ⟨e, es⟩
        · have heq : x :: b :: c :: d :: ([] : List Nat) = [13, 10, 45, 45] :=
            hc.sublist.eq_of_length (by simp)
          rw [heq] at h1
          exact absurd h1.1 (by decide)
        · have hlen := hc.length_le
          simp [List.length_cons] at hlen

theorem hexDigit_bounds (k : Nat) : 32 ≤ (hexDigit k).toNat ∧ (hexDigit k).toNat < 128 := by
  match k with
  | 0 => decide
  | 1 => decide
  | 2 => decide
  | 3 => decide
  | 4 => decide
  | 5 => decide
  | 6 => decide
  | 7 => decide
  | 8 => decide
  | 9 => decide
  | 10 => decide
  | 11 => decide
  | 12 => decide
  | 13 => decide
  | 14 => decide
  | (n + 15) => exact (by decide : 32 ≤ Char.toNat 'f' ∧ Char.toNat 'f' < 128)

theorem utf8Char_of_lt128 {c : Char} (h : c.toNat < 128) : utf8Char c = [c.toNat] := by
  unfold utf8Char
  simp [h]

theorem utf8Char_ge_32 {c : Char} (h : 32 ≤ c.toNat) : ∀ b ∈ utf8Char c, 32 ≤ b := by
  intro b hb
  unfold utf8Char at hb
  split_ifs at hb <;> simp at hb <;> omega

theorem escChar_bytes (c : Char) : ∀ b ∈ utf8List (escChar c), 32 ≤ b := by
  unfold escChar
  split_ifs with h1 h2 h3 h4 h5 h6 h7 h8
  · decide
  · decide
  · decide
  · decide
  · decide
  · decide
  · decide
  · intro b hb
    have hd1 := hexDigit_bounds (c.toNat / 16)
    have hd2 := hexDigit_bounds (c.toNat % 16)
    have e1 : utf8Char '\\' = [92] := by decide
    have e2 : utf8Char 'u' = [117] := by decide
    have e3 : utf8Char '0' = [48] := by decide
    simp [utf8List, e1, e2, e3, utf8Char_of_lt128 hd1.2, utf8Char_of_lt128 hd2.2] at hb
    rcases hb with h | h | h | h | h | h <;> omega
  · intro b hb
    simp [utf8List] at hb
    exact utf8Char_ge_32 (by omega) b hb

theorem jsonEscape_bytes (s : String) : ∀ b ∈ utf8 (jsonEscape s), 32 ≤ b := by
  show ∀ b ∈ utf8List ((s.data.map escChar).flatten), 32 ≤ b
  induction s.data with
  | nil => simp [utf8List]
  | cons c cs ih =>
    intro b hb
    rw [List.map_cons, List.flatten_cons, utf8List_append] at hb
    rcases List.mem_append.mp hb with h | h
    · exact escChar_bytes c b h
    · exact ih b h

theorem parseLoop_succ (sep : List Nat) (n : Nat) {rest raw after : List Nat}
    (hsp : splitFirst sep rest = some (raw, after)) :
    parseLoop sep (n + 1) rest =
      if [45, 45].isPrefixOf after then some [raw]
      else if [13, 10].isPrefixOf after then
        match parseLoop sep n (after.drop 2) with
        | some raws => some (raw :: raws)
        | none => none
      else none := by
  rw [parseLoop, hsp]

theorem splitFirst_rawCommands (ub J rest : List Nat)
    (hJ13 : ∀ x ∈ J, x ≠ 13) (hJ45 : [45, 45].isPrefixOf J = false) :
    splitFirst (13 :: 10 :: 45 :: 45 :: ub)
      (rawCommands J ++ ((13 :: 10 :: 45 :: 45 :: ub) ++ rest)) = some (rawCommands J, rest) := by
  apply splitFirst_at (by simp)
  show noStart (13 :: 10 :: 45 :: 45 :: ub) (bCD1 ++ [13, 10] ++ bCT1 ++ [13, 10, 13, 10] ++ J) _
  refine noStart_append (noStart_append (noStart_append (noStart_append ?_ ?_) ?_) ?_) ?_
  · exact noStart_of_cleanFor [13, 10, 45, 45] ub _ (by decide)
  · have hCT1 : bCT1 = 67 :: utf8 "ontent-Type: application/json" := by decide
    rw [hCT1, List.cons_append]
    apply noStart_crlf 45 (45 :: ub)
    norm_num
  · exact noStart_of_cleanFor [13, 10, 45, 45] ub _ (by decide)
  · rw [← List.append_assoc]
    exact noStart_blank45_jpeg ub rest J hJ45
  · exact noStart_of_all_ne (10 :: 45 :: 45 :: ub) _ (fun x hx => hJ13 x hx)

theorem splitFirst_rawImage (ub jpeg rest : List Nat)
    (h1 : hasSub [13, 10, 45, 45] jpeg = false)
    (h2 : [45, 45].isPrefixOf jpeg = false) :
    splitFirst (13 :: 10 :: 45 :: 45 :: ub)
      (rawImage jpeg ++ ((13 :: 10 :: 45 :: 45 :: ub) ++ rest)) = some (rawImage jpeg, rest) := by
  apply splitFirst_at (by simp)
  show noStart (13 :: 10 :: 45 :: 45 :: ub)
    (bCD2 ++ [13, 10] ++ bCT2 ++ [13, 10] ++ bCTE ++ [13, 10, 13, 10] ++ jpeg) _
  refine noStart_append (noStart_append (noStart_append (noStart_append (noStart_append
    (noStart_append ?_ ?_) ?_) ?_) ?_) ?_) ?_
  · exact noStart_of_cleanFor [13, 10, 45, 45] ub _ (by decide)
  · have hCT2 : bCT2 = 67 :: utf8 "ontent-Type: image/jpeg" := by decide
    rw [hCT2, List.cons_append]
    apply noStart_crlf 45 (45 :: ub)
    norm_num
  · exact noStart_of_cleanFor [13, 10, 45, 45] ub _ (by decide)
  · have hCTE : bCTE = 67 :: utf8 "ontent-Transfer-Encoding: binary" := by decide
    rw [hCTE, List.cons_append]
    apply noStart_crlf 45 (45 :: ub)
    norm_num
  · exact noStart_of_cleanFor [13, 10, 45, 45] ub _ (by decide)
  · rw [← List.append_assoc]
    exact noStart_blank45_jpeg ub rest jpeg h2
  · apply noStart_jpeg ub _ h1

theorem parseLoop_body (ub J jpeg : List Nat) (n : Nat)
    (hJ13 : ∀ x ∈ J, x ≠ 13) (hJ45 : [45, 45].isPrefixOf J = false)
    (h1 : hasSub [13, 10, 45, 45] jpeg = false) (h2 : [45, 45].isPrefixOf jpeg = false) :
    parseLoop (13 :: 10 :: 45 :: 45 :: ub) (n + 2)
      (rawCommands J ++ ((13 :: 10 :: 45 :: 45 :: ub) ++
        ([13, 10] ++ (rawImage jpeg ++ ((13 :: 10 :: 45 :: 45 :: ub) ++ [45, 45, 13, 10]))))) =
      some [rawCommands J, rawImage jpeg] := by
  have hs1 := splitFirst_rawCommands ub J
    ([13, 10] ++ (rawImage jpeg ++ ((13 :: 10 :: 45 :: 45 :: ub) ++ [45, 45, 13, 10])))
    hJ13 hJ45
  rw [parseLoop_succ _ (n + 1) hs1]
  have c1 : [45, 45].isPrefixOf
      ([13, 10] ++ (rawImage jpeg ++ ((13 :: 10 :: 45 :: 45 :: ub) ++ [45, 45, 13, 10]))) = false := by
    simp [List.isPrefixOf]
  have c2 : [13, 10].isPrefixOf
      ([13, 10] ++ (rawImage jpeg ++ ((13 :: 10 :: 45 :: 45 :: ub) ++ [45, 45, 13, 10]))) = true := by
    simp [List.isPrefixOf]
  simp only [c1, Bool.false_eq_true, if_false, c2, if_true]
  have hdrop : ([13, 10] ++ (rawImage jpeg ++ ((13 :: 10 :: 45 :: 45 :: ub) ++
      [45, 45, 13, 10]))).drop 2 =
      rawImage jpeg ++ ((13 :: 10 :: 45 :: 45 :: ub) ++ [45, 45, 13, 10]) := rfl
  rw [hdrop]
  have hs2 := splitFirst_rawImage ub jpeg [45, 45, 13, 10] h1 h2
  rw [parseLoop_succ _ n hs2]
  have c3 : [45, 45].isPrefixOf [45, 45, 13, 10] = true := by decide
  simp only [c3, if_true]

theorem splitFirst_hdr_rawCommands (J : List Nat) :
    splitFirst [13, 10, 13, 10] (rawCommands J) = some (bCD1 ++ [13, 10] ++ bCT1, J) := by
  have hre : rawCommands J = (bCD1 ++ [13, 10] ++ bCT1) ++ ([13, 10, 13, 10] ++ J) := by
    simp [rawCommands, List.append_assoc]
  rw [hre]
  apply splitFirst_at (by simp)
  refine noStart_append (noStart_append ?_ ?_) ?_
  · exact noStart_of_cleanFor [13, 10, 13, 10] [] _ (by decide)
  · have hCT1 : bCT1 = 67 :: utf8 "ontent-Type: application/json" := by decide
    rw [hCT1, List.cons_append]
    apply noStart_crlf 13 [10]
    norm_num
  · exact noStart_of_cleanFor [13, 10, 13, 10] [] _ (by decide)

theorem splitFirst_hdr_rawImage (jpeg : List Nat) :
    splitFirst [13, 10, 13, 10] (rawImage jpeg) =
      some (bCD2 ++ [13, 10] ++ bCT2 ++ [13, 10] ++ bCTE, jpeg) := by
  have hre : rawImage jpeg =
      (bCD2 ++ [13, 10] ++ bCT2 ++ [13, 10] ++ bCTE) ++ ([13, 10, 13, 10] ++ jpeg) := by
    simp [rawImage, List.append_assoc]
  rw [hre]
  apply splitFirst_at (by simp)
  refine noStart_append (noStart_append (noStart_append (noStart_append ?_ ?_) ?_) ?_) ?_
  · exact noStart_of_cleanFor [13, 10, 13, 10] [] _ (by decide)
  · have hCT2 : bCT2 = 67 :: utf8 "ontent-Type: image/jpeg" := by decide
    rw [hCT2, List.cons_append]
    apply noStart_crlf 13 [10]
    norm_num
  · exact noStart_of_cleanFor [13, 10, 13, 10] [] _ (by decide)
  · have hCTE : bCTE = 67 :: utf8 "ontent-Transfer-Encoding: binary" := by decide
    rw [hCTE, List.cons_append]
    apply noStart_crlf 13 [10]
    norm_num
  · exact noStart_of_cleanFor [13, 10, 13, 10] [] _ (by decide)

theorem parsePart_rawCommands (J : List Nat) :
    parsePart (rawCommands J) = some (utf8 "Commands", J) := by
  have hn : headerName (bCD1 ++ 13 :: 10 :: bCT1) = some (utf8 "Commands") := by decide
  simp [parsePart, splitFirst_hdr_rawCommands, hn]

theorem parsePart_rawImage (jpeg : List Nat) :
    parsePart (rawImage jpeg) = some (utf8 "diagramImage", jpeg) := by
  have hn : headerName (bCD2 ++ 13 :: 10 :: (bCT2 ++ 13 :: 10 :: bCTE)) =
      some (utf8 "diagramImage") := by decide
  simp [parsePart, splitFirst_hdr_rawImage, hn]

theorem multipartBuffer_eq (b title : String) (jpeg : List Nat) :
    multipartBuffer b title jpeg =
      (45 :: 45 :: (utf8 b ++ [13, 10])) ++
      (rawCommands (utf8 (commandsJson title)) ++ ((13 :: 10 :: 45 :: 45 :: utf8 b) ++
        ([13, 10] ++ (rawImage jpeg ++
          ((13 :: 10 :: 45 :: 45 :: utf8 b) ++ [45, 45, 13, 10]))))) := by
  have s1 : ("Content-Disposition: form-data; name=\"Commands\"\r\n" : String) =
      "Content-Disposition: form-data; name=\"Commands\"" ++ "\r\n" := by decide
  have s2 : ("Content-Type: application/json\r\n" : String) =
      "Content-Type: application/json" ++ "\r\n" := by decide
  have s3 : ("Content-Disposition: form-data; name=\"diagramImage\"\r\n" : String) =
      "Content-Disposition: form-data; name=\"diagramImage\"" ++ "\r\n" := by decide
  have s4 : ("Content-Type: image/jpeg\r\n" : String) =
      "Content-Type: image/jpeg" ++ "\r\n" := by decide
  have s5 : ("Content-Transfer-Encoding: binary\r\n" : String) =
      "Content-Transfer-Encoding: binary" ++ "\r\n" := by decide
  have e1 : utf8 "\r\n" = [13, 10] := by decide
  have e2 : utf8 "--" = [45, 45] := by decide
  have e3 : utf8 "\r\n--" = [13, 10, 45, 45] := by decide
  have e4 : utf8 "--\r\n" = [45, 45, 13, 10] := by decide
  rw [multipartBuffer, commandsPart, imagePart, closingBoundary, s1, s2, s3, s4, s5]
  simp only [utf8_append, e1, e2, e3, e4]
  simp [rawCommands, rawImage, bCD1, bCT1, bCD2, bCT2, bCTE, List.append_assoc]

theorem commandsJson_bytes_ne13 (title : String) :
    ∀ x ∈ utf8 (commandsJson title), x ≠ 13 := by
  intro x hx
  rw [commandsJson, utf8_append, utf8_append] at hx
  simp only [List.mem_append] at hx
  rcases hx with (hx | hx) | hx
  · have h := (by decide :
      ∀ y ∈ utf8 "[\x7b\"target\":\"body\",\"action\":\"append\",\"content\":\"", y ≠ 13)
    exact h x hx
  · have h := jsonEscape_bytes (imgContent title) x hx
    omega
  · have h := (by decide : ∀ y ∈ utf8 "\"\x7d]", y ≠ 13)
    exact h x hx

theorem commandsJson_not_dashdash (title : String) :
    [45, 45].isPrefixOf (utf8 (commandsJson title)) = false := by
  have h : utf8 (commandsJson title) =
      91 :: (utf8 "\x7b\"target\":\"body\",\"action\":\"append\",\"content\":\"" ++
        (utf8 (jsonEscape (imgContent title)) ++ utf8 "\"\x7d]")) := by
    rw [commandsJson, utf8_append, utf8_append]
    have hh : utf8 "[\x7b\"target\":\"body\",\"action\":\"append\",\"content\":\"" =
        91 :: utf8 "\x7b\"target\":\"body\",\"action\":\"append\",\"content\":\"" := by decide
    rw [hh]
    simp
  rw [h]
  simp [List.isPrefixOf]

/-- The assembled multipart body of `saveDiagram`, parsed against the
boundary it was built with, yields exactly the two parts `Commands` and
`diagramImage` in that order, the latter carrying the raw image bytes —
provided the delimiter lead-in `\r\n--` does not occur inside the image
bytes and the image does not begin with `--`. -/
theorem parseMultipart_saveDiagram (b title : String) (jpeg : List Nat)
    (h1 : hasSub [13, 10, 45, 45] jpeg = false)
    (h2 : [45, 45].isPrefixOf jpeg = false) :
    parseMultipart b (multipartBuffer b title jpeg) =
      some [(utf8 "Commands", utf8 (commandsJson title)), (utf8 "diagramImage", jpeg)] := by
  have hdash : utf8 ("--" ++ b ++ "\r\n") = 45 :: 45 :: (utf8 b ++ [13, 10]) := by
    rw [utf8_append, utf8_append]
    have e2 : utf8 "--" = [45, 45] := by decide
    have e1 : utf8 "\r\n" = [13, 10] := by decide
    rw [e1, e2]
    simp
  have hsep : utf8 ("\r\n--" ++ b) = 13 :: 10 :: 45 :: 45 :: utf8 b := by
    rw [utf8_append]
    have e3 : utf8 "\r\n--" = [13, 10, 45, 45] := by decide
    rw [e3]
    rfl
  unfold parseMultipart
  rw [multipartBuffer_eq b title jpeg, hdash, hsep]
  have hpre : (45 :: 45 :: (utf8 b ++ [13, 10])).isPrefixOf
      ((45 :: 45 :: (utf8 b ++ [13, 10])) ++
       (rawCommands (utf8 (commandsJson title)) ++ ((13 :: 10 :: 45 :: 45 :: utf8 b) ++
        ([13, 10] ++ (rawImage jpeg ++
          ((13 :: 10 :: 45 :: 45 :: utf8 b) ++ [45, 45, 13, 10])))))) = true := by
    rw [List.isPrefixOf_iff_prefix]
    exact List.prefix_append _ _
  simp only [hpre, if_true]
  rw [List.drop_left]
  rw [parseLoop_body (utf8 b) _ jpeg _ (commandsJson_bytes_ne13 title)
    (commandsJson_not_dashdash title) h1 h2]
  simp [parseAllParts, parsePart_rawCommands, parsePart_rawImage]

theorem saveDiagram_render_error {env : SaveEnv} {sectionId title content description e : String}
    (h : (generateJpegFromMermaid env.browser content).1 = Except.error e) :
    saveDiagram env sectionId title content description =
      (Except.error ("Failed to save diagram: " ++ e), [Event.renderE content]) := by
  unfold saveDiagram
  rw [h]

theorem saveDiagram_create_error {env : SaveEnv} {sectionId title content description e : String}
    {jpeg : List Nat}
    (hr : (generateJpegFromMermaid env.browser content).1 = Except.ok jpeg)
    (hc : env.createPage = Except.error e) :
    saveDiagram env sectionId title content description =
      (Except.error ("Failed to save diagram: " ++ e),
       [Event.renderE content,
        Event.createPageE ("/me/onenote/sections/" ++ sectionId ++ "/pages")
          "application/xhtml+xml" (pageHtml title content description)]) := by
  unfold saveDiagram
  rw [hr, hc]

theorem saveDiagram_patch_error {env : SaveEnv} {sectionId title content description m : String}
    {jpeg : List Nat} {p : PageR}
    (hr : (generateJpegFromMermaid env.browser content).1 = Except.ok jpeg)
    (hc : env.createPage = Except.ok p)
    (hp : env.patchResult = Except.error m) :
    saveDiagram env sectionId title content description =
      (Except.error ("Failed to save diagram: " ++ m),
       publishTrace env sectionId title content description jpeg p) := by
  unfold saveDiagram
  rw [hr, hc, hp]
  rfl

theorem saveDiagram_ok {env : SaveEnv} {sectionId title content description : String}
    {jpeg : List Nat} {p : PageR} {u : Unit}
    (hr : (generateJpegFromMermaid env.browser content).1 = Except.ok jpeg)
    (hc : env.createPage = Except.ok p)
    (hp : env.patchResult = Except.ok u) :
    saveDiagram env sectionId title content description =
      (Except.ok p, publishTrace env sectionId title content description jpeg p) := by
  unfold saveDiagram
  rw [hr, hc, hp]
  rfl

/-- C1: a failure at any stage of `saveDiagram` prevents every later store
call — if rendering fails the result is the render failure, `createPage`
is never invoked and no patch is issued; and a patch call can only appear
in the trace when `createPage` succeeded. -/
theorem claim1_failure_prevents_later_stages
    (env : SaveEnv) (sectionId title content description : String) :
    (∀ e, (generateJpegFromMermaid env.browser content).1 = Except.error e →
      (saveDiagram env sectionId title content description).1 =
        Except.error ("Failed to save diagram: " ++ e) ∧
      (∀ u ct h, Event.createPageE u ct h ∉
        (saveDiagram env sectionId title content description).2) ∧
      (∀ u ct bdy, Event.patchE u ct bdy ∉
        (saveDiagram env sectionId title content description).2)) ∧
    (∀ u ct bdy, Event.patchE u ct bdy ∈
        (saveDiagram env sectionId title content description).2 →
      ∃ p, env.createPage = Except.ok p) := by
  constructor
  · intro e he
    rw [saveDiagram_render_error he]
    refine ⟨rfl, ?_, ?_⟩ <;> intro u ct h' <;> simp
  · intro u ct bdy hmem
    rcases hgr : (generateJpegFromMermaid env.browser content).1 with e | jpeg
    · rw [saveDiagram_render_error hgr] at hmem
      simp at hmem
    · rcases hc : env.createPage with e | p
      · rw [saveDiagram_create_error hgr hc] at hmem
        simp at hmem
      · exact ⟨p, rfl⟩

theorem claim1_witness :
    (saveDiagram envRenderFail "sec-1" "Flow" "graph TD; A-->B" "").1 =
      Except.error "Failed to save diagram: Failed to convert Mermaid diagram to JPEG: boom" ∧
    (∀ u ct h, Event.createPageE u ct h ∉
      (saveDiagram envRenderFail "sec-1" "Flow" "graph TD; A-->B" "").2) ∧
    (∀ u ct bdy, Event.patchE u ct bdy ∉
      (saveDiagram envRenderFail "sec-1" "Flow" "graph TD; A-->B" "").2) :=
  (claim1_failure_prevents_later_stages envRenderFail "sec-1" "Flow" "graph TD; A-->B" "").1
    "Failed to convert Mermaid diagram to JPEG: boom" rfl

/-- C4: `generateJpegFromMermaid` either succeeds with exactly the bytes
captured by the sandbox — non-empty whenever the capture is non-empty, and
requested in JPEG format at quality 80 — or fails with the wrapped render
failure caused by the sandbox launch, the page load, or the 5-second
wait-for-render timeout. -/
theorem claim4_render_nonempty_or_failure (env : BrowserEnv) (markup : String)
    (hshot : env.screenshot ≠ []) :
    ((generateJpegFromMermaid env markup).1 = Except.ok env.screenshot ∧
      env.screenshot ≠ [] ∧
      BEvent.screenshotB "jpeg" 80 ∈ (generateJpegFromMermaid env markup).2 ∧
      BEvent.waitForB waitFn 5000 ∈ (generateJpegFromMermaid env markup).2) ∨
    (∃ cause, (generateJpegFromMermaid env markup).1 =
        Except.error ("Failed to convert Mermaid diagram to JPEG: " ++ cause) ∧
      (env.launch = Except.error cause ∨ env.setContent = Except.error cause ∨
       env.waitRender = Except.error cause)) := by
  rcases env with ⟨lch, sc, wr, shot⟩
  rcases lch with e | ⟨⟩
  · exact Or.inr ⟨e, rfl, Or.inl rfl⟩
  rcases sc with e | ⟨⟩
  · exact Or.inr ⟨e, rfl, Or.inr (Or.inl rfl)⟩
  rcases wr with e | ⟨⟩
  · exact Or.inr ⟨e, rfl, Or.inr (Or.inr rfl)⟩
  · refine Or.inl ⟨rfl, hshot, ?_, ?_⟩ <;> simp [generateJpegFromMermaid]

theorem claim4_witness :
    ((generateJpegFromMermaid envBrowserOk "graph TD; A-->B").1 =
        Except.ok envBrowserOk.screenshot ∧
      envBrowserOk.screenshot ≠ [] ∧
      BEvent.screenshotB "jpeg" 80 ∈ (generateJpegFromMermaid envBrowserOk "graph TD; A-->B").2 ∧
      BEvent.waitForB waitFn 5000 ∈ (generateJpegFromMermaid envBrowserOk "graph TD; A-->B").2) ∨
    (∃ cause, (generateJpegFromMermaid envBrowserOk "graph TD; A-->B").1 =
        Except.error ("Failed to convert Mermaid diagram to JPEG: " ++ cause) ∧
      (envBrowserOk.launch = Except.error cause ∨
       envBrowserOk.setContent = Except.error cause ∨
       envBrowserOk.waitRender = Except.error cause)) :=
  claim4_render_nonempty_or_failure envBrowserOk "graph TD; A-->B" (by decide)

/-- C5: the browser is closed exactly once on every exit path on which it
was launched (success, page-load failure, render timeout), the close is the
final action of the call, and when the launch itself fails no sandbox was
acquired and no close happens; no trace ever contains two closes. -/
theorem claim5_sandbox_close_exactly_once (env : BrowserEnv) (markup : String) :
    countClose (generateJpegFromMermaid env markup).2 ≤ 1 ∧
    (env.launch = Except.ok () →
      countClose (generateJpegFromMermaid env markup).2 = 1 ∧
      (generateJpegFromMermaid env markup).2.getLast? = some BEvent.closeB) ∧
    (∀ e, env.launch = Except.error e →
      countClose (generateJpegFromMermaid env markup).2 = 0) := by
  rcases env with ⟨lch, sc, wr, shot⟩
  rcases lch with e | ⟨⟩
  · refine ⟨by simp [generateJpegFromMermaid, countClose], ?_, ?_⟩
    · intro h
      simp at h
    · intro e' _
      simp [generateJpegFromMermaid, countClose]
  rcases sc with e | ⟨⟩
  · refine ⟨by simp [generateJpegFromMermaid, countClose], ?_, ?_⟩
    · intro _
      exact ⟨by simp [generateJpegFromMermaid, countClose], by simp [generateJpegFromMermaid]⟩
    · intro e' h
      simp at h
  rcases wr with e | ⟨⟩ <;>
  · refine ⟨by simp [generateJpegFromMermaid, countClose], ?_, ?_⟩
    · intro _
      exact ⟨by simp [generateJpegFromMermaid, countClose], by simp [generateJpegFromMermaid]⟩
    · intro e' h
      simp at h

theorem claim5_witness :
    countClose (generateJpegFromMermaid envBrowserOk "graph LR; X-->Y").2 ≤ 1 ∧
    (envBrowserOk.launch = Except.ok () →
      countClose (generateJpegFromMermaid envBrowserOk "graph LR; X-->Y").2 = 1 ∧
      (generateJpegFromMermaid envBrowserOk "graph LR; X-->Y").2.getLast? =
        some BEvent.closeB) ∧
    (∀ e, envBrowserOk.launch = Except.error e →
      countClose (generateJpegFromMermaid envBrowserOk "graph LR; X-->Y").2 = 0) :=
  claim5_sandbox_close_exactly_once envBrowserOk "graph LR; X-->Y"

/-- C6: when `createPage` succeeded and the patch then fails, the publish
fails with the wrapped patch failure, no delete request is ever issued, and
the placeholder page is still in the store after the trace. -/
theorem claim6_patch_failure_no_rollback (env : SaveEnv)
    (sectionId title content description : String) (jpeg : List Nat) (p : PageR) (m : String)
    (hr : (generateJpegFromMermaid env.browser content).1 = Except.ok jpeg)
    (hc : env.createPage = Except.ok p)
    (hp : env.patchResult = Except.error m) :
    (saveDiagram env sectionId title content description).1 =
      Except.error ("Failed to save diagram: " ++ m) ∧
    (∀ u, Event.deletePageE u ∉ (saveDiagram env sectionId title content description).2) ∧
    p ∈ storeAfter env (saveDiagram env sectionId title content description).2 := by
  rw [saveDiagram_patch_error hr hc hp]
  refine ⟨rfl, ?_, ?_⟩
  · intro u
    simp [publishTrace]
  · simp [publishTrace, storeAfter, applyEvent, hc]

theorem claim6_witness :
    (saveDiagram envPatchFail "sec-1" "Flow" "graph TD; A-->B" "").1 =
      Except.error "Failed to save diagram: 409 Conflict" ∧
    (∀ u, Event.deletePageE u ∉ (saveDiagram envPatchFail "sec-1" "Flow" "graph TD; A-->B" "").2) ∧
    (⟨"pg-1", "Flow"⟩ : PageR) ∈
      storeAfter envPatchFail (saveDiagram envPatchFail "sec-1" "Flow" "graph TD; A-->B" "").2 :=
  claim6_patch_failure_no_rollback envPatchFail "sec-1" "Flow" "graph TD; A-->B" ""
    [255, 216, 255] ⟨"pg-1", "Flow"⟩ "409 Conflict" rfl rfl rfl

/-- C7: once `createPage` succeeded, the whole publish trace is exactly
render, create, a fixed 5000 ms sleep, then the patch — no readiness check
and no other store call between page creation and the patch. -/
theorem claim7_fixed_wait_between_create_and_patch (env : SaveEnv)
    (sectionId title content description : String) (jpeg : List Nat) (p : PageR)
    (hr : (generateJpegFromMermaid env.browser content).1 = Except.ok jpeg)
    (hc : env.createPage = Except.ok p) :
    (saveDiagram env sectionId title content description).2 =
      [Event.renderE content,
       Event.createPageE ("/me/onenote/sections/" ++ sectionId ++ "/pages")
         "application/xhtml+xml" (pageHtml title content description),
       Event.sleepE 5000,
       Event.patchE ("/me/onenote/pages/" ++ p.id ++ "/content")
         ("multipart/form-data; boundary=" ++ mkBoundary env.now)
         (multipartBuffer (mkBoundary env.now) title jpeg)] := by
  rcases hp : env.patchResult with m | u
  · rw [saveDiagram_patch_error hr hc hp]
    rfl
  · rw [saveDiagram_ok hr hc hp]
    rfl

theorem claim7_witness :
    (saveDiagram envAllOk "sec-1" "Flow" "graph TD; A-->B" "").2 =
      [Event.renderE "graph TD; A-->B",
       Event.createPageE "/me/onenote/sections/sec-1/pages"
         "application/xhtml+xml" (pageHtml "Flow" "graph TD; A-->B" ""),
       Event.sleepE 5000,
       Event.patchE "/me/onenote/pages/pg-1/content"
         ("multipart/form-data; boundary=" ++ mkBoundary 7)
         (multipartBuffer (mkBoundary 7) "Flow" [255, 216, 255])] :=
  claim7_fixed_wait_between_create_and_patch envAllOk "sec-1" "Flow" "graph TD; A-->B" ""
    [255, 216, 255] ⟨"pg-1", "Flow"⟩ rfl rfl

set_option maxRecDepth 40000 in
/-- C2 counterexample: in this publish call the render engine returned
`jpegCollide`, the patch body is the multipart buffer for boundary
`PartBoundary0`, yet the reference parser recovers a `diagramImage` part
whose raw bytes are `[]` — not the output buffer of the render engine — because
the image bytes contain the boundary delimiter. -/
theorem claim2_counterexample :
    (generateJpegFromMermaid envCollide.browser "g").1 = Except.ok jpegCollide ∧
    Event.patchE "/me/onenote/pages/pg-1/content"
      ("multipart/form-data; boundary=" ++ mkBoundary 0)
      (multipartBuffer (mkBoundary 0) "T" jpegCollide) ∈
      (saveDiagram envCollide "s" "T" "g" "").2 ∧
    parseMultipart (mkBoundary 0) (multipartBuffer (mkBoundary 0) "T" jpegCollide) =
      some [(utf8 "Commands", utf8 (commandsJson "T")), (utf8 "diagramImage", [])] ∧
    jpegCollide ≠ [] := by
  have hsd : saveDiagram envCollide "s" "T" "g" "" =
      (Except.ok ⟨"pg-1", "T"⟩,
       publishTrace envCollide "s" "T" "g" "" jpegCollide ⟨"pg-1", "T"⟩) :=
    saveDiagram_ok rfl rfl rfl
  refine ⟨rfl, ?_, by decide, by decide⟩
  rw [hsd]
  simp [publishTrace, envCollide]

/-- C2 (amended): provided the delimiter lead-in `\r\n--` does not occur in
the image bytes and the image does not begin with `--`, the patch event of
a successful-so-far publish carries the multipart body for the generated
boundary, the same boundary appears in the `Content-Type` header, and the
reference parser yields exactly two parts named `Commands` and
`diagramImage` in that order, where the raw bytes of the latter are exactly the
buffer of the render engine. -/
theorem claim2_amended_multipart_round_trip (env : SaveEnv)
    (sectionId title content description : String) (jpeg : List Nat) (p : PageR)
    (hr : (generateJpegFromMermaid env.browser content).1 = Except.ok jpeg)
    (hc : env.createPage = Except.ok p)
    (h1 : hasSub [13, 10, 45, 45] jpeg = false)
    (h2 : [45, 45].isPrefixOf jpeg = false) :
    Event.patchE ("/me/onenote/pages/" ++ p.id ++ "/content")
      ("multipart/form-data; boundary=" ++ mkBoundary env.now)
      (multipartBuffer (mkBoundary env.now) title jpeg) ∈
      (saveDiagram env sectionId title content description).2 ∧
    parseMultipart (mkBoundary env.now) (multipartBuffer (mkBoundary env.now) title jpeg) =
      some [(utf8 "Commands", utf8 (commandsJson title)), (utf8 "diagramImage", jpeg)] := by
  constructor
  · rcases hp : env.patchResult with m | u
    · rw [saveDiagram_patch_error hr hc hp]
      simp [publishTrace]
    · rw [saveDiagram_ok hr hc hp]
      simp [publishTrace]
  · exact parseMultipart_saveDiagram _ _ _ h1 h2

theorem claim2_witness :
    Event.patchE "/me/onenote/pages/pg-1/content"
      ("multipart/form-data; boundary=" ++ mkBoundary 7)
      (multipartBuffer (mkBoundary 7) "Flow" [255, 216, 255]) ∈
      (saveDiagram envAllOk "sec-1" "Flow" "graph TD; A-->B" "").2 ∧
    parseMultipart (mkBoundary 7) (multipartBuffer (mkBoundary 7) "Flow" [255, 216, 255]) =
      some [(utf8 "Commands", utf8 (commandsJson "Flow")),
            (utf8 "diagramImage", [255, 216, 255])] :=
  claim2_amended_multipart_round_trip envAllOk "sec-1" "Flow" "graph TD; A-->B" ""
    [255, 216, 255] ⟨"pg-1", "Flow"⟩ rfl rfl (by decide) (by decide)

set_option maxRecDepth 40000 in
/-- C3 counterexample: two different publish calls whose `Date.now()`
readings coincide (tick 123) both use the boundary token `PartBoundary123`
— the generated tokens are equal, not distinct. -/
theorem claim3_counterexample :
    mkBoundary 123 = "PartBoundary123" ∧
    Event.patchE "/me/onenote/pages/pg-1/content"
      "multipart/form-data; boundary=PartBoundary123"
      (multipartBuffer "PartBoundary123" "T1" [255, 216, 255]) ∈
      (saveDiagram envTickA "s1" "T1" "g1" "").2 ∧
    Event.patchE "/me/onenote/pages/pg-2/content"
      "multipart/form-data; boundary=PartBoundary123"
      (multipartBuffer "PartBoundary123" "T2" [200]) ∈
      (saveDiagram envTickB "s2" "T2" "g2" "").2 := by
  decide

/-- C3 (amended): the boundary token is a deterministic function of the
time reading — `PartBoundary` followed by `Date.now()` — so two publish
calls issued within the same process tick use the same token (the same
one appears in both patch requests), rather than distinct ones. -/
theorem claim3_amended_boundary_same_tick (env1 env2 : SaveEnv)
    (s1 t1 c1 d1 s2 t2 c2 d2 : String) (j1 j2 : List Nat) (p1 p2 : PageR)
    (hr1 : (generateJpegFromMermaid env1.browser c1).1 = Except.ok j1)
    (hc1 : env1.createPage = Except.ok p1)
    (hr2 : (generateJpegFromMermaid env2.browser c2).1 = Except.ok j2)
    (hc2 : env2.createPage = Except.ok p2)
    (hnow : env1.now = env2.now) :
    Event.patchE ("/me/onenote/pages/" ++ p1.id ++ "/content")
      ("multipart/form-data; boundary=" ++ mkBoundary env1.now)
      (multipartBuffer (mkBoundary env1.now) t1 j1) ∈ (saveDiagram env1 s1 t1 c1 d1).2 ∧
    Event.patchE ("/me/onenote/pages/" ++ p2.id ++ "/content")
      ("multipart/form-data; boundary=" ++ mkBoundary env1.now)
      (multipartBuffer (mkBoundary env1.now) t2 j2) ∈ (saveDiagram env2 s2 t2 c2 d2).2 := by
  constructor
  · rcases hp : env1.patchResult with m | u
    · rw [saveDiagram_patch_error hr1 hc1 hp]
      simp [publishTrace]
    · rw [saveDiagram_ok hr1 hc1 hp]
      simp [publishTrace]
  · rw [hnow]
    rcases hp : env2.patchResult with m | u
    · rw [saveDiagram_patch_error hr2 hc2 hp]
      simp [publishTrace]
    · rw [saveDiagram_ok hr2 hc2 hp]
      simp [publishTrace]

theorem claim3_witness :
    Event.patchE "/me/onenote/pages/pg-1/content"
      ("multipart/form-data; boundary=" ++ mkBoundary envTickA.now)
      (multipartBuffer (mkBoundary envTickA.now) "T1" [255, 216, 255]) ∈
      (saveDiagram envTickA "s1" "T1" "g1" "").2 ∧
    Event.patchE "/me/onenote/pages/pg-2/content"
      ("multipart/form-data; boundary=" ++ mkBoundary envTickA.now)
      (multipartBuffer (mkBoundary envTickA.now) "T2" [200]) ∈
      (saveDiagram envTickB "s2" "T2" "g2" "").2 :=
  claim3_amended_boundary_same_tick envTickA envTickB "s1" "T1" "g1" "" "s2" "T2" "g2" ""
    [255, 216, 255] [200] ⟨"pg-1", "T1"⟩ ⟨"pg-2", "T2"⟩ rfl rfl rfl rfl rfl

set_option maxRecDepth 40000 in
/-- C8 counterexample: a publish whose `createPage` fails with cause `E`
and a publish whose patch fails with cause `E` report the exact same
outcome to the caller (`Failed to save diagram: E`), so the single failed
outcome does not carry the originating stage. -/
theorem claim8_counterexample :
    envCreateFailE.createPage = Except.error "E" ∧
    envPatchFailE.createPage = Except.ok ⟨"pg-9", "T"⟩ ∧
    envPatchFailE.patchResult = Except.error "E" ∧
    (saveDiagram envCreateFailE "s" "T" "g" "").1 = (saveDiagram envPatchFailE "s" "T" "g" "").1 := by
  have h1 : saveDiagram envCreateFailE "s" "T" "g" "" =
      (Except.error ("Failed to save diagram: " ++ "E"),
       [Event.renderE "g",
        Event.createPageE ("/me/onenote/sections/" ++ "s" ++ "/pages")
          "application/xhtml+xml" (pageHtml "T" "g" "")]) :=
    saveDiagram_create_error rfl rfl
  have h2 : saveDiagram envPatchFailE "s" "T" "g" "" =
      (Except.error ("Failed to save diagram: " ++ "E"),
       publishTrace envPatchFailE "s" "T" "g" "" [255, 216, 255] ⟨"pg-9", "T"⟩) :=
    saveDiagram_patch_error rfl rfl rfl
  exact ⟨rfl, rfl, rfl, by rw [h1, h2]⟩

/-- Each stage of a publish is invoked at most once. -/
theorem saveDiagram_stage_counts (env : SaveEnv) (s t c d : String) :
    countRender (saveDiagram env s t c d).2 ≤ 1 ∧
    countCreate (saveDiagram env s t c d).2 ≤ 1 ∧
    countPatch (saveDiagram env s t c d).2 ≤ 1 := by
  rcases hgr : (generateJpegFromMermaid env.browser c).1 with e | jpeg
  · rw [saveDiagram_render_error hgr]
    exact ⟨Nat.le_of_eq rfl, Nat.zero_le 1, Nat.zero_le 1⟩
  rcases hc : env.createPage with e | p
  · rw [saveDiagram_create_error hgr hc]
    exact ⟨Nat.le_of_eq rfl, Nat.le_of_eq rfl, Nat.zero_le 1⟩
  rcases hp : env.patchResult with m | u
  · rw [saveDiagram_patch_error hgr hc hp]
    exact ⟨Nat.le_of_eq rfl, Nat.le_of_eq rfl, Nat.le_of_eq rfl⟩
  · rw [saveDiagram_ok hgr hc hp]
    exact ⟨Nat.le_of_eq rfl, Nat.le_of_eq rfl, Nat.le_of_eq rfl⟩

/-- C8 (amended): every failure — render, store-creation or patch — is
reported as a single failed outcome `Failed to save diagram: <cause>`
wrapping the underlying cause message (for the render stage the cause is
itself tagged `Failed to convert Mermaid diagram to JPEG: …`, but creation
and patch failures carry only the cause, so the stage is not recoverable
from the outcome), and no stage is ever invoked more than once within the
call. -/
theorem claim8_amended_failure_reporting (env : SaveEnv)
    (sectionId title content description : String) :
    (∀ e, (generateJpegFromMermaid env.browser content).1 = Except.error e →
      (saveDiagram env sectionId title content description).1 =
        Except.error ("Failed to save diagram: " ++ e)) ∧
    (∀ jpeg e, (generateJpegFromMermaid env.browser content).1 = Except.ok jpeg →
      env.createPage = Except.error e →
      (saveDiagram env sectionId title content description).1 =
        Except.error ("Failed to save diagram: " ++ e)) ∧
    (∀ jpeg p e, (generateJpegFromMermaid env.browser content).1 = Except.ok jpeg →
      env.createPage = Except.ok p → env.patchResult = Except.error e →
      (saveDiagram env sectionId title content description).1 =
        Except.error ("Failed to save diagram: " ++ e)) ∧
    countRender (saveDiagram env sectionId title content description).2 ≤ 1 ∧
    countCreate (saveDiagram env sectionId title content description).2 ≤ 1 ∧
    countPatch (saveDiagram env sectionId title content description).2 ≤ 1 := by
  obtain ⟨k1, k2, k3⟩ := saveDiagram_stage_counts env sectionId title content description
  refine ⟨?_, ?_, ?_, k1, k2, k3⟩
  · intro e he
    rw [saveDiagram_render_error he]
  · intro jpeg e hr hc
    rw [saveDiagram_create_error hr hc]
  · intro jpeg p e hr hc hp
    rw [saveDiagram_patch_error hr hc hp]

theorem claim8_witness :
    (saveDiagram envPatchFailE "s" "T" "g" "").1 =
      Except.error "Failed to save diagram: E" ∧
    countRender (saveDiagram envPatchFailE "s" "T" "g" "").2 ≤ 1 ∧
    countCreate (saveDiagram envPatchFailE "s" "T" "g" "").2 ≤ 1 ∧
    countPatch (saveDiagram envPatchFailE "s" "T" "g" "").2 ≤ 1 := by
  obtain ⟨-, -, h3, h4, h5, h6⟩ := claim8_amended_failure_reporting envPatchFailE "s" "T" "g" ""
  exact ⟨h3 [255, 216, 255] ⟨"pg-9", "T"⟩ "E" rfl rfl rfl, h4, h5, h6⟩

/-- C9: the title is interpolated verbatim — unescaped — into the
XHTML of the placeholder page (both the `<title>` element and, via the text
body, the `<div>`), and into the `alt` attribute of the `<img>` element
carried by the Commands JSON; only JSON string escaping is applied on the
wire, and it leaves every printable character other than `"` and `\`
(in particular `<` and `>`) unchanged. -/
theorem claim9_title_verbatim (env : SaveEnv)
    (sectionId title content description : String) (jpeg : List Nat)
    (hr : (generateJpegFromMermaid env.browser content).1 = Except.ok jpeg) :
    Event.createPageE ("/me/onenote/sections/" ++ sectionId ++ "/pages") "application/xhtml+xml"
        ("<!DOCTYPE html><html><head><title>" ++ title ++ "</title></head><body><div>" ++
         ("# " ++ title ++ "\n          " ++ (if description = "" then "" else description) ++
          "\n\n          ## Diagram Source (Mermaid)\n          ```\n          " ++ content ++
          "\n          ```\n          ") ++ "</div></body></html>") ∈
      (saveDiagram env sectionId title content description).2 ∧
    imgContent title =
      "<img src=\"name:diagramImage\" alt=\"" ++ title ++ "\" data-src-type=\"image/jpeg\"/>" ∧
    commandsJson title =
      "[\x7b\"target\":\"body\",\"action\":\"append\",\"content\":\"" ++
        jsonEscape (imgContent title) ++ "\"\x7d]" ∧
    (∀ c : Char, 32 ≤ c.toNat → c ≠ '"' → c ≠ '\\' → escChar c = [c]) := by
  refine ⟨?_, rfl, rfl, ?_⟩
  · have hhtml : ("<!DOCTYPE html><html><head><title>" ++ title ++
        "</title></head><body><div>" ++
        ("# " ++ title ++ "\n          " ++ (if description = "" then "" else description) ++
         "\n\n          ## Diagram Source (Mermaid)\n          ```\n          " ++ content ++
         "\n          ```\n          ") ++ "</div></body></html>") =
        pageHtml title content description := rfl
    rw [hhtml]
    rcases hc : env.createPage with e | p
    · rw [saveDiagram_create_error hr hc]
      simp
    · rcases hp : env.patchResult with m | u
      · rw [saveDiagram_patch_error hr hc hp]
        simp [publishTrace]
      · rw [saveDiagram_ok hr hc hp]
        simp [publishTrace]
  · intro c h1 h2 h3
    have n3 : ¬ (c.toNat = 8) := by omega
    have n4 : ¬ (c.toNat = 9) := by omega
    have n5 : ¬ (c.toNat = 10) := by omega
    have n6 : ¬ (c.toNat = 12) := by omega
    have n7 : ¬ (c.toNat = 13) := by omega
    have n8 : ¬ (c.toNat < 32) := by omega
    simp [escChar, h2, h3, n3, n4, n5, n6, n7, n8]

theorem claim9_witness :
    Event.createPageE ("/me/onenote/sections/" ++ "sec-1" ++ "/pages") "application/xhtml+xml"
        ("<!DOCTYPE html><html><head><title>" ++ "<b>\"pwn\"</b>" ++
         "</title></head><body><div>" ++
         ("# " ++ "<b>\"pwn\"</b>" ++ "\n          " ++
          (if ("" : String) = "" then "" else "") ++
          "\n\n          ## Diagram Source (Mermaid)\n          ```\n          " ++
          "graph TD; A-->B" ++
          "\n          ```\n          ") ++ "</div></body></html>") ∈
      (saveDiagram envAllOk "sec-1" "<b>\"pwn\"</b>" "graph TD; A-->B" "").2 ∧
    imgContent "<b>\"pwn\"</b>" =
      "<img src=\"name:diagramImage\" alt=\"" ++ "<b>\"pwn\"</b>" ++
        "\" data-src-type=\"image/jpeg\"/>" ∧
    commandsJson "<b>\"pwn\"</b>" =
      "[\x7b\"target\":\"body\",\"action\":\"append\",\"content\":\"" ++
        jsonEscape (imgContent "<b>\"pwn\"</b>") ++ "\"\x7d]" ∧
    (∀ c : Char, 32 ≤ c.toNat → c ≠ '"' → c ≠ '\\' → escChar c = [c]) :=
  claim9_title_verbatim envAllOk "sec-1" "<b>\"pwn\"</b>" "graph TD; A-->B" ""
    [255, 216, 255] rfl

/-- C10: the `save_diagram` handler resolves the notebook and then the
section by exact `displayName` equality; when either lookup has no match
the call returns an `isError` result with only the listing calls in its
trace — no render, no `createPage`, no patch — and a render can only occur
after both lookups succeeded. -/
theorem claim10_lookup_errors (env : ToolEnv)
    (title content notebookName sectionName description : String) :
    ((∀ nb ∈ env.notebooks, nb.displayName ≠ notebookName) →
      (handleSaveDiagram env title content notebookName sectionName description).1.isError =
        true ∧
      (handleSaveDiagram env title content notebookName sectionName description).2 =
        [Event.getNotebooksE]) ∧
    (∀ nb, env.notebooks.find? (fun x => x.displayName == notebookName) = some nb →
      nb.displayName = notebookName ∧
      ((∀ s ∈ env.sections nb.id, s.displayName ≠ sectionName) →
        (handleSaveDiagram env title content notebookName sectionName description).1.isError =
          true ∧
        (handleSaveDiagram env title content notebookName sectionName description).2 =
          [Event.getNotebooksE, Event.getSectionsE nb.id])) ∧
    (∀ m, Event.renderE m ∈
        (handleSaveDiagram env title content notebookName sectionName description).2 →
      ∃ nb s, env.notebooks.find? (fun x => x.displayName == notebookName) = some nb ∧
        (env.sections nb.id).find? (fun x => x.displayName == sectionName) = some s) := by
  refine ⟨?_, ?_, ?_⟩
  · intro hnone
    have hfind : env.notebooks.find? (fun x => x.displayName == notebookName) = none := by
      rw [List.find?_eq_none]
      intro x hx
      simp [hnone x hx]
    unfold handleSaveDiagram
    rw [hfind]
    exact ⟨rfl, rfl⟩
  · intro nb hnb
    refine ⟨by simpa using List.find?_some hnb, ?_⟩
    intro hnone
    have hfind : (env.sections nb.id).find? (fun x => x.displayName == sectionName) = none := by
      rw [List.find?_eq_none]
      intro x hx
      simp [hnone x hx]
    unfold handleSaveDiagram
    simp only [hnb, hfind]
    simp
  · intro m hm
    rcases hnb : env.notebooks.find? (fun x => x.displayName == notebookName) with _ | nb
    · unfold handleSaveDiagram at hm
      rw [hnb] at hm
      simp at hm
    rcases hsec : (env.sections nb.id).find? (fun x => x.displayName == sectionName) with _ | s
    · unfold handleSaveDiagram at hm
      simp only [hnb, hsec] at hm
      simp at hm
    · exact ⟨nb, s, hnb, hsec⟩

theorem claim10_witness :
    ((handleSaveDiagram envTool "Flow" "graph TD; A-->B" "Personal" "Architecture" "").1.isError =
      true ∧
    (handleSaveDiagram envTool "Flow" "graph TD; A-->B" "Personal" "Architecture" "").2 =
      [Event.getNotebooksE]) ∧
    (∀ nb, envTool.notebooks.find? (fun x => x.displayName == "Work") = some nb →
      nb.displayName = "Work") := by
  constructor
  · exact (claim10_lookup_errors envTool "Flow" "graph TD; A-->B" "Personal" "Architecture" "").1
      (by decide)
  · intro nb hnb
    exact ((claim10_lookup_errors envTool "Flow" "graph TD; A-->B" "Work" "Architecture" "").2.1
      nb hnb).1

end OneNote
